import Mathlib

/-!
Verification of the navigation core of the projectAR walking-navigation app.

The development shallowly embeds the Navigation Fusion & Routing Engine:
the geometry helpers of src/services/mapService.ts and
src/components/AROverlay.tsx (haversine distance, initial bearing, the
arrow-rotation mapper), the routing fallback (createDirectRoute), the
OSRM response parsing of MapService.calculateRoute with JavaScript
exception semantics modelled by Except, the arrival update of
NavigationView, the React effect re-run discipline that drives route
recomputation, and the heading updates of useGeolocation.

Real-number trigonometry from the source is embedded over the exact reals;
the numeric state machines are kept polymorphic over an ordered field so
that concrete runs can be evaluated over the rationals.
-/

namespace ProjectAR

/-- A geographic coordinate, src/types/index.ts interface Location. -/
structure Location where
  latitude : ℝ
  longitude : ℝ

/-- Truncation toward zero, the rounding used by the JavaScript remainder
operator: floor for nonnegative arguments, ceiling for negative ones. -/
def trunc {α : Type} [LinearOrderedField α] [FloorRing α] (x : α) : ℤ :=
  if 0 ≤ x then ⌊x⌋ else ⌈x⌉

/-- The JavaScript remainder operator a % b: the result has the sign of the
dividend, a - b * truncate(a / b). -/
def jsMod {α : Type} [LinearOrderedField α] [FloorRing α] (a b : α) : α :=
  a - b * (trunc (a / b) : α)

/-- AROverlay.tsx line 142: adjustedBearing = (bearing - currentHeading + 360) % 360. -/
def adjustedBearing {α : Type} [LinearOrderedField α] [FloorRing α]
    (bearing heading : α) : α :=
  jsMod (bearing - heading + 360) 360

/-- NavigationView location-update effect, src/unnamed/part_001 lines 73-76:
if (distanceToDestination < 10 && !hasArrived) setHasArrived(true).
The guard is the only write to the arrived flag while a session is mounted. -/
def arrivalUpdate {α : Type} [LinearOrder α] [OfNat α 10]
    (hasArrived : Bool) (d : α) : Bool :=
  if d < 10 ∧ hasArrived = false then true else hasArrived

/-- An event observed by useGeolocation: a position fix whose coords.heading
may be null, or a deviceorientation event whose alpha may be null. -/
inductive GeoEvent (α : Type) where
  | posFix (heading : Option α)
  | orientation (alpha : Option α)

/-- Heading update of useGeolocation (src/hooks/useCamera.ts, second hook):
a fix updates the stored heading only when coords.heading !== null, and a
deviceorientation event only when event.alpha !== null, storing
(360 - alpha) % 360. -/
def updateHeading {α : Type} [LinearOrderedField α] [FloorRing α]
    (h : α) : GeoEvent α → α
  | .posFix none => h
  | .posFix (some hd) => hd
  | .orientation none => h
  | .orientation (some a) => jsMod (360 - a) 360

/-- Whether an event carries a non-null heading value. -/
def carriesHeading {α : Type} : GeoEvent α → Bool
  | .posFix (some _) => true
  | .orientation (some _) => true
  | .posFix none => false
  | .orientation none => false

/-- Initial heading of useGeolocation: useState number 0. -/
def initialHeading : ℚ := 0

/-- Successive dependency values at which a React effect re-runs: the first
render, and every later render whose dependency value differs from the
previous render. Helper walking the tail. -/
def effectRunValuesAux {δ : Type} [DecidableEq δ] (prev : δ) : List δ → List δ
  | [] => []
  | y :: ys => if y = prev then effectRunValuesAux prev ys
               else y :: effectRunValuesAux y ys

/-- Dependency values at which a React effect runs, given the values the
dependency tuple takes on successive renders. -/
def effectRunValues {δ : Type} [DecidableEq δ] : List δ → List δ
  | [] => []
  | x :: xs => x :: effectRunValuesAux x xs

/-- Number of mapService.calculateRoute invocations performed by the
route-calculation effect of NavigationView (src/unnamed/part_001 lines
44-65) over a session: the effect has dependency array
[currentLocation, destination], its body returns early when
currentLocation is null and otherwise calls calculateRoute exactly once. -/
def calculateRouteCalls {δ ε : Type} [DecidableEq δ] [DecidableEq ε]
    (renders : List (Option δ × ε)) : Nat :=
  ((effectRunValues renders).filter (fun dep => dep.1.isSome)).length

/-- Degrees to radians, the (x * Math.PI) / 180 conversion used by both
AROverlay.haversineDistance and MapService.calculateBearing. -/
noncomputable def toRad (x : ℝ) : ℝ :=
  x * Real.pi / 180

/-- Two-argument arctangent with the JavaScript Math.atan2 convention;
in particular atan2 0 0 = 0. -/
noncomputable def atan2 (y x : ℝ) : ℝ :=
  if 0 < x then Real.arctan (y / x)
  else if x < 0 then
    (if 0 ≤ y then Real.arctan (y / x) + Real.pi
     else Real.arctan (y / x) - Real.pi)
  else if 0 < y then Real.pi / 2
  else if y < 0 then -(Real.pi / 2)
  else 0

/-- The haversine kernel of AROverlay.haversineDistance (AROverlay.tsx
lines 7-19): sin(dLat/2)^2 + cos(lat1) * cos(lat2) * sin(dLon/2)^2. The
same kernel is computed by the turf distance dependency used in
MapService. -/
noncomputable def hav (loc1 loc2 : Location) : ℝ :=
  Real.sin (toRad (loc2.latitude - loc1.latitude) / 2) ^ 2 +
    Real.cos (toRad loc1.latitude) * Real.cos (toRad loc2.latitude) *
      Real.sin (toRad (loc2.longitude - loc1.longitude) / 2) ^ 2

/-- Central angle 2 * atan2(sqrt(a), sqrt(1 - a)) between two coordinates. -/
noncomputable def haversineAngle (loc1 loc2 : Location) : ℝ :=
  2 * atan2 (Real.sqrt (hav loc1 loc2)) (Real.sqrt (1 - hav loc1 loc2))

/-- AROverlay.haversineDistance: Earth radius 6371000 m times the central
angle. -/
noncomputable def haversineDistance (loc1 loc2 : Location) : ℝ :=
  6371000 * haversineAngle loc1 loc2

/-- The two-coordinate distance in kilometers computed by the external
turf distance dependency called from MapService: haversine central angle
scaled by the turf Earth radius constant, 6371.0088 km. -/
noncomputable def turfDistanceKm (a b : Location) : ℝ :=
  haversineAngle a b * 6371.0088

/-- MapService.calculateDistance (mapService.ts lines 137-143): turf
distance in kilometers times 1000. -/
noncomputable def calculateDistance (s e : Location) : ℝ :=
  turfDistanceKm s e * 1000

/-- MapService.calculateBearing (mapService.ts lines 119-132): forward
azimuth via atan2, converted to degrees and normalized with
(bearing + 360) % 360. -/
noncomputable def calculateBearing (s e : Location) : ℝ :=
  jsMod
    (atan2 (Real.sin (toRad e.longitude - toRad s.longitude) * Real.cos (toRad e.latitude))
        (Real.cos (toRad s.latitude) * Real.sin (toRad e.latitude) -
          Real.sin (toRad s.latitude) * Real.cos (toRad e.latitude) *
            Real.cos (toRad e.longitude - toRad s.longitude)) *
      180 / Real.pi + 360)
    360

/-- Arrow rotation of the AROverlay direction effect (AROverlay.tsx lines
139-145): the bearing from the current position to the destination,
adjusted by the device heading. -/
noncomputable def arrowRotation (cur dest : Location) (heading : ℝ) : ℝ :=
  adjustedBearing (calculateBearing cur dest) heading

/-- A step of a computed route, src/types/index.ts interface RouteStep.
Numeric fields are optional because the JavaScript object can hold
undefined when the remote payload omits a field. -/
structure RouteStep where
  instruction : String
  distance : Option ℝ
  duration : Option ℝ
  coordinate : Location

/-- A computed route, src/types/index.ts interface Route. -/
structure Route where
  coordinates : List Location
  distance : Option ℝ
  duration : Option ℝ
  steps : List RouteStep

/-- MapService.createDirectRoute (mapService.ts lines 91-114): the
deterministic direct-line fallback route. -/
noncomputable def createDirectRoute (start endLoc : Location) : Route :=
  { coordinates := [start, endLoc]
    distance := some (turfDistanceKm start endLoc * 1000)
    duration := some (turfDistanceKm start endLoc * 1000 / 1.4)
    steps := [{ instruction := "Head towards destination"
                distance := some (turfDistanceKm start endLoc * 1000)
                duration := some (turfDistanceKm start endLoc * 1000 / 1.4)
                coordinate := endLoc }] }

/-- maneuver object of an OSRM step; each field may be absent. -/
structure RawManeuver where
  instruction : Option String
  location : Option (ℝ × ℝ)

/-- A step of an OSRM leg as received over the wire. -/
structure RawStep where
  maneuver : Option RawManeuver
  distance : Option ℝ
  duration : Option ℝ

/-- A leg of an OSRM route candidate. -/
structure RawLeg where
  steps : Option (List RawStep)

/-- geometry object of an OSRM route candidate; coordinates are
[longitude, latitude] pairs. -/
structure RawGeometry where
  coordinates : Option (List (ℝ × ℝ))

/-- An OSRM route candidate as received over the wire. -/
structure RawRoute where
  geometry : Option RawGeometry
  distance : Option ℝ
  duration : Option ℝ
  legs : Option (List RawLeg)

/-- The JSON body of an OSRM routing response. -/
structure RawResponse where
  routes : Option (List RawRoute)

/-- The possible outcomes of the remote fetch performed by
MapService.calculateRoute: the fetch promise rejects, the response is
non-success (response.ok false), response.json() rejects, or a JSON body
is delivered. -/
inductive FetchOutcome where
  | networkError
  | httpError
  | jsonError
  | payload (body : RawResponse)

/-- Builds one RouteStep from a raw OSRM step, mapService.ts lines 65-73.
Reading instruction or location off an absent maneuver object, or
indexing an absent location, throws in JavaScript, modelled as an error;
an absent instruction is defaulted to the Continue straight text, and
absent distance and duration values are carried through as undefined. -/
def parseStep (s : RawStep) : Except Unit RouteStep :=
  match s.maneuver with
  | none => .error ()
  | some m =>
    match m.location with
    | none => .error ()
    | some loc =>
      .ok { instruction := m.instruction.getD ("Continue straight")
            distance := s.distance
            duration := s.duration
            coordinate := { latitude := loc.2, longitude := loc.1 } }

/-- Maps parseStep over the raw steps, propagating the first thrown
exception, as Array.prototype.map does. -/
def parseSteps : List RawStep → Except Unit (List RouteStep)
  | [] => .ok []
  | s :: rest =>
    match parseStep s with
    | .error e => .error e
    | .ok st =>
      match parseSteps rest with
      | .error e => .error e
      | .ok sts => .ok (st :: sts)

/-- The try block of MapService.calculateRoute (mapService.ts lines
42-80) with JavaScript exception semantics: a rejected fetch, a
non-success response, a rejected json(), a missing or empty routes array,
and every member access on an absent object throw; absent numeric totals
are carried through as undefined. -/
def tryCalculateRoute : FetchOutcome → Except Unit Route
  | .networkError => .error ()
  | .httpError => .error ()
  | .jsonError => .error ()
  | .payload body =>
    match body.routes with
    | none => .error ()
    | some [] => .error ()
    | some (route :: _) =>
      match route.geometry with
      | none => .error ()
      | some geom =>
        match geom.coordinates with
        | none => .error ()
        | some coords =>
          match route.legs with
          | none => .error ()
          | some [] => .error ()
          | some (leg :: _) =>
            match leg.steps with
            | none => .error ()
            | some rawSteps =>
              match parseSteps rawSteps with
              | .error e => .error e
              | .ok steps =>
                .ok { coordinates :=
                        coords.map (fun c => { latitude := c.2, longitude := c.1 })
                      distance := route.distance
                      duration := route.duration
                      steps := steps }

/-- MapService.calculateRoute (mapService.ts lines 41-86): the try block
with the catch clause substituting the direct-line fallback route on any
thrown error. -/
noncomputable def calculateRoute (o : FetchOutcome) (start endLoc : Location) : Route :=
  match tryCalculateRoute o with
  | .ok r => r
  | .error _ => createDirectRoute start endLoc

/-- Whether a raw OSRM step lacks a field whose access throws in the
parsing of MapService.calculateRoute: the maneuver object or
maneuver.location. -/
def stepMissingRequired (s : RawStep) : Bool :=
  match s.maneuver with
  | none => true
  | some m => m.location.isNone

/-- Whether a route candidate lacks a field whose access throws in the
parsing of MapService.calculateRoute. -/
def routeMissingRequired (r : RawRoute) : Bool :=
  match r.geometry with
  | none => true
  | some geom =>
    match geom.coordinates with
    | none => true
    | some _ =>
      match r.legs with
      | none => true
      | some [] => true
      | some (leg :: _) =>
        match leg.steps with
        | none => true
        | some rawSteps => rawSteps.any stepMissingRequired

/-- Whether a fetch outcome makes MapService.calculateRoute take the
fallback branch. -/
def responseFallsBack : FetchOutcome → Bool
  | .networkError => true
  | .httpError => true
  | .jsonError => true
  | .payload body =>
    match body.routes with
    | none => true
    | some [] => true
    | some (route :: _) => routeMissingRequired route

/-- The navigation-session state kept by NavigationView that the claims
concern: the current position, the destination, the arrived flag and the
recomputed distance to the destination. -/
structure SessionState where
  currentLocation : Option Location
  destination : Location
  hasArrived : Bool
  distanceToDestination : ℝ

/-- State at session start: no known position recorded yet, arrived false,
displayed distance initialized to 0 (src/unnamed/part_001 lines 29-41). -/
noncomputable def sessionInit (dest : Location) : SessionState :=
  { currentLocation := none
    destination := dest
    hasArrived := false
    distanceToDestination := 0 }

/-- The location-update effect of NavigationView (src/unnamed/part_001
lines 67-85) applied to one position fix: recompute the distance with
mapService.calculateDistance and run the arrival check. -/
noncomputable def onFix (st : SessionState) (loc : Location) : SessionState :=
  { st with currentLocation := some loc
            distanceToDestination := calculateDistance loc st.destination
            hasArrived := arrivalUpdate st.hasArrived (calculateDistance loc st.destination) }

lemma trunc_one {α : Type} [LinearOrderedField α] [FloorRing α] :
    trunc (1 : α) = 1 := by
  simp [trunc]

lemma jsMod_base {α : Type} [LinearOrderedField α] [FloorRing α]
    {b : α} (hb : b ≠ 0) : jsMod b b = 0 := by
  simp [jsMod, div_self hb, trunc_one]

lemma jsMod_add_self {α : Type} [LinearOrderedField α] [FloorRing α]
    {x b : α} (hb : 0 < b) (hx : 0 ≤ x) : jsMod (x + b) b = jsMod x b := by
  unfold jsMod trunc
  have hxb : 0 ≤ x / b := div_nonneg hx hb.le
  have hxbb : 0 ≤ (x + b) / b := div_nonneg (add_nonneg hx hb.le) hb.le
  rw [if_pos hxb, if_pos hxbb]
  have hsplit : (x + b) / b = x / b + 1 := by
    field_simp
  rw [hsplit, Int.floor_add_one]
  push_cast
  ring

lemma atan2_zero_pos {x : ℝ} (hx : 0 < x) : atan2 0 x = 0 := by
  unfold atan2
  rw [if_pos hx, zero_div, Real.arctan_zero]

lemma atan2_zero_zero : atan2 0 0 = 0 := by
  simp [atan2]

lemma hav_self (p : Location) : hav p p = 0 := by
  simp [hav, toRad]

lemma hav_comm (a b : Location) : hav a b = hav b a := by
  have hsq : ∀ x y : ℝ,
      Real.sin (toRad (x - y) / 2) ^ 2 = Real.sin (toRad (y - x) / 2) ^ 2 := by
    intro x y
    rw [show x - y = -(y - x) by ring]
    rw [show toRad (-(y - x)) / 2 = -(toRad (y - x) / 2) by unfold toRad; ring]
    rw [Real.sin_neg, neg_sq]
  unfold hav
  rw [hsq a.latitude b.latitude]
  rw [hsq a.longitude b.longitude]
  ring

lemma haversineAngle_self (p : Location) : haversineAngle p p = 0 := by
  rw [haversineAngle, hav_self]
  rw [Real.sqrt_zero, sub_zero, Real.sqrt_one, atan2_zero_pos one_pos, mul_zero]

lemma haversineAngle_comm (a b : Location) :
    haversineAngle a b = haversineAngle b a := by
  unfold haversineAngle
  rw [hav_comm]

lemma calculateDistance_self (p : Location) : calculateDistance p p = 0 := by
  rw [calculateDistance, turfDistanceKm, haversineAngle_self]
  ring

lemma calculateBearing_self (p : Location) : calculateBearing p p = 0 := by
  show jsMod
      (atan2 (Real.sin (toRad p.longitude - toRad p.longitude) * Real.cos (toRad p.latitude))
          (Real.cos (toRad p.latitude) * Real.sin (toRad p.latitude) -
            Real.sin (toRad p.latitude) * Real.cos (toRad p.latitude) *
              Real.cos (toRad p.longitude - toRad p.longitude)) *
        180 / Real.pi + 360)
      360 = 0
  rw [sub_self, Real.sin_zero, Real.cos_zero, zero_mul, mul_one]
  rw [show Real.cos (toRad p.latitude) * Real.sin (toRad p.latitude) -
        Real.sin (toRad p.latitude) * Real.cos (toRad p.latitude) = 0 by ring]
  rw [atan2_zero_zero, zero_mul, zero_div, zero_add]
  exact jsMod_base (by norm_num)

lemma calculateBearing_due_north {lat1 lat2 lng : ℝ}
    (h1 : toRad lat1 < toRad lat2) (h2 : toRad lat2 - toRad lat1 < Real.pi) :
    calculateBearing ⟨lat1, lng⟩ ⟨lat2, lng⟩ = 0 := by
  show jsMod
      (atan2 (Real.sin (toRad lng - toRad lng) * Real.cos (toRad lat2))
          (Real.cos (toRad lat1) * Real.sin (toRad lat2) -
            Real.sin (toRad lat1) * Real.cos (toRad lat2) *
              Real.cos (toRad lng - toRad lng)) *
        180 / Real.pi + 360)
      360 = 0
  rw [sub_self, Real.sin_zero, Real.cos_zero, zero_mul, mul_one]
  rw [show Real.cos (toRad lat1) * Real.sin (toRad lat2) -
        Real.sin (toRad lat1) * Real.cos (toRad lat2) =
        Real.sin (toRad lat2 - toRad lat1) by rw [Real.sin_sub]; ring]
  have hpos : 0 < Real.sin (toRad lat2 - toRad lat1) :=
    Real.sin_pos_of_pos_of_lt_pi (by linarith) h2
  rw [atan2_zero_pos hpos, zero_mul, zero_div, zero_add]
  exact jsMod_base (by norm_num)

lemma hav_pole : hav ⟨90, 0⟩ ⟨90, 90⟩ = 0 := by
  have h90 : (90 : ℝ) * Real.pi / 180 = Real.pi / 2 := by ring
  simp [hav, toRad, h90, Real.cos_pi_div_two]

lemma calculateDistance_pole : calculateDistance ⟨90, 0⟩ ⟨90, 90⟩ = 0 := by
  rw [calculateDistance, turfDistanceKm, haversineAngle, hav_pole]
  rw [Real.sqrt_zero, sub_zero, Real.sqrt_one, atan2_zero_pos one_pos]
  ring

lemma arrivalUpdate_true {α : Type} [LinearOrder α] [OfNat α 10]
    (d : α) : arrivalUpdate true d = true := by
  simp [arrivalUpdate]

lemma parseSteps_error_of_any {ss : List RawStep}
    (h : ss.any stepMissingRequired = true) : parseSteps ss = Except.error () := by
  induction ss with
  | nil => simp at h
  | cons s rest ih =>
    rw [List.any_cons] at h
    by_cases hs : stepMissingRequired s = true
    · have hps : parseStep s = Except.error () := by
        unfold stepMissingRequired at hs
        cases hm : s.maneuver with
        | none => simp [parseStep, hm]
        | some m =>
          rw [hm] at hs
          have hs2 : m.location.isNone = true := hs
          cases hl : m.location with
          | none => simp [parseStep, hm, hl]
          | some loc => rw [hl] at hs2; simp at hs2
      simp [parseSteps, hps]
    · have hrest : rest.any stepMissingRequired = true := by
        simp only [Bool.or_eq_true] at h
        rcases h with h | h
        · exact absurd h hs
        · exact h
      have hre := ih hrest
      unfold parseSteps
      cases hps : parseStep s with
      | error e => rfl
      | ok st => rw [hre]

/-- C1: For every origin and destination, MapService.calculateRoute never
raises to its caller: under every outcome of the remote fetch (network
error, non-success response, empty candidate list, malformed payload) it
resolves to a Route value, substituting the direct-line route on the
error branch. -/
theorem calculateRoute_always_resolves :
    ∀ (o : FetchOutcome) (s e : Location),
      ((tryCalculateRoute o).isOk = false ∧
          calculateRoute o s e = createDirectRoute s e) ∨
        ∃ r, tryCalculateRoute o = Except.ok r ∧ calculateRoute o s e = r := by
  intro o s e
  cases h : tryCalculateRoute o with
  | error err =>
    left
    refine ⟨rfl, ?_⟩
    unfold calculateRoute
    rw [h]
  | ok r =>
    right
    refine ⟨r, rfl, ?_⟩
    unfold calculateRoute
    rw [h]

/-- C2: The fallback route produced by MapService.createDirectRoute is
exactly path = [origin, destination], total distance =
calculateDistance(origin, destination), total duration = that distance
divided by 1.4, and a single step with the Head towards destination text,
that same distance and duration, located at the destination; as a pure
function of the two coordinates it is deterministic. -/
theorem createDirectRoute_exact_and_deterministic :
    ∀ (s e : Location),
      createDirectRoute s e =
          { coordinates := [s, e]
            distance := some (calculateDistance s e)
            duration := some (calculateDistance s e / 1.4)
            steps := [{ instruction := "Head towards destination"
                        distance := some (calculateDistance s e)
                        duration := some (calculateDistance s e / 1.4)
                        coordinate := e }] } ∧
        createDirectRoute s e = createDirectRoute s e := by
  intro s e
  exact ⟨rfl, rfl⟩

/-- C3: In a navigation session the arrived flag becomes true exactly when
the recomputed distance is strictly below 10 meters, never reverts to
false over any further sequence of fixes, and on the distance sequence
[50, 20, 9.5, 9.5] it becomes true exactly at the third fix and stays
true at the fourth. -/
theorem arrived_monotone_threshold :
    (∀ {α : Type} [inst1 : LinearOrder α] [inst2 : OfNat α 10] (b : Bool) (d : α),
        arrivalUpdate b d = true ↔ b = true ∨ d < 10) ∧
      (∀ {α : Type} [inst1 : LinearOrder α] [inst2 : OfNat α 10] (ds : List α),
          List.foldl arrivalUpdate true ds = true) ∧
      List.foldl arrivalUpdate false [(50 : ℚ)] = false ∧
      List.foldl arrivalUpdate false [(50 : ℚ), 20] = false ∧
      List.foldl arrivalUpdate false [(50 : ℚ), 20, 9.5] = true ∧
      List.foldl arrivalUpdate false [(50 : ℚ), 20, 9.5, 9.5] = true := by
  refine ⟨?_, ?_, by norm_num [List.foldl, arrivalUpdate],
    by norm_num [List.foldl, arrivalUpdate], by norm_num [List.foldl, arrivalUpdate],
    by norm_num [List.foldl, arrivalUpdate]⟩
  · intro α inst1 inst2 b d
    cases b <;> by_cases hd : d < 10 <;> simp [arrivalUpdate, hd]
  · intro α inst1 inst2 ds
    induction ds with
    | nil => rfl
    | cons d ds ih => rw [List.foldl_cons, arrivalUpdate_true]; exact ih

/-- C4: The route-calculation effect of NavigationView lists
currentLocation in its dependency array, so a second position fix with a
different value re-runs the effect and calls mapService.calculateRoute a
second time within the same session: starting at (0, 0) and then fixing
at (0, 0.001) with destination (10, 10) yields two invocations, where the
claim demands exactly one. -/
theorem routeEffect_second_fix_recomputes :
    calculateRouteCalls
        [(some ((0 : ℚ), (0 : ℚ)), ((10 : ℚ), (10 : ℚ))),
          (some ((0 : ℚ), (1 / 1000 : ℚ)), ((10 : ℚ), (10 : ℚ)))] = 2 := by
  norm_num [calculateRouteCalls, effectRunValues, effectRunValuesAux, List.filter]

/-- A raw step carrying every field, used by the C5 counterexample. -/
noncomputable def rawStepComplete : RawStep :=
  { maneuver := some { instruction := some ("Turn left"),
                       location := some ((2 : ℝ), 3) },
    distance := some 5,
    duration := some 6 }

/-- A syntactically well-formed OSRM payload whose single route candidate
lacks only the routes[0].distance field. -/
noncomputable def payloadMissingDistance : RawResponse :=
  { routes := some [{ geometry := some { coordinates := some [((2 : ℝ), 3)] },
                      distance := none,
                      duration := some 600,
                      legs := some [{ steps := some [rawStepComplete] }] }] }

/-- C5 counterexample: a response lacking routes[0].distance does not
trigger the fallback; MapService.calculateRoute returns a Route built
from the partial payload (with an undefined total distance) instead of
the direct-line route, refuting the claim as stated. -/
theorem missing_distance_skips_fallback :
    calculateRoute (FetchOutcome.payload payloadMissingDistance) ⟨0, 0⟩ ⟨1, 1⟩ ≠
      createDirectRoute ⟨0, 0⟩ ⟨1, 1⟩ := by
  intro h
  have hd : (calculateRoute (FetchOutcome.payload payloadMissingDistance)
      ⟨0, 0⟩ ⟨1, 1⟩).distance = none := by
    simp [calculateRoute, tryCalculateRoute, payloadMissingDistance,
      parseSteps, parseStep, rawStepComplete]
  rw [h] at hd
  simp [createDirectRoute] at hd

/-- C5 amended: the fallback is taken exactly on the absences whose access
throws: a missing or empty routes array, missing routes[0].geometry,
missing geometry.coordinates, missing routes[0].legs, an empty legs
array, missing legs[0].steps, or any step with a missing maneuver or
maneuver.location; missing distance and duration totals are instead
carried into the returned Route as absent values and a missing
maneuver.instruction is defaulted. -/
theorem fallback_on_missing_required :
    ∀ (o : FetchOutcome) (s e : Location),
      responseFallsBack o = true → calculateRoute o s e = createDirectRoute s e := by
  intro o s e ho
  have herr : tryCalculateRoute o = Except.error () := by
    cases o with
    | networkError => rfl
    | httpError => rfl
    | jsonError => rfl
    | payload body =>
      cases hr : body.routes with
      | none => simp [tryCalculateRoute, hr]
      | some routes =>
        cases routes with
        | nil => simp [tryCalculateRoute, hr]
        | cons route rest =>
          have hm : routeMissingRequired route = true := by
            simpa [responseFallsBack, hr] using ho
          cases hg : route.geometry with
          | none => simp [tryCalculateRoute, hr, hg]
          | some geom =>
            cases hc : geom.coordinates with
            | none => simp [tryCalculateRoute, hr, hg, hc]
            | some coords =>
              cases hl : route.legs with
              | none => simp [tryCalculateRoute, hr, hg, hc, hl]
              | some legs =>
                cases legs with
                | nil => simp [tryCalculateRoute, hr, hg, hc, hl]
                | cons leg more =>
                  cases hs : leg.steps with
                  | none => simp [tryCalculateRoute, hr, hg, hc, hl, hs]
                  | some rawSteps =>
                    have hany : rawSteps.any stepMissingRequired = true := by
                      simpa [routeMissingRequired, hg, hc, hl, hs] using hm
                    have hps := parseSteps_error_of_any hany
                    simp [tryCalculateRoute, hr, hg, hc, hl, hs, hps]
  unfold calculateRoute
  rw [herr]

/-- C5 witness: a network error satisfies the fallback condition and
calculateRoute substitutes the direct route there. -/
theorem fallback_on_missing_required_witness :
    responseFallsBack FetchOutcome.networkError = true ∧
      calculateRoute FetchOutcome.networkError ⟨0, 0⟩ ⟨1, 1⟩ =
        createDirectRoute ⟨0, 0⟩ ⟨1, 1⟩ :=
  ⟨rfl, fallback_on_missing_required FetchOutcome.networkError ⟨0, 0⟩ ⟨1, 1⟩ rfl⟩

/-- C6: The arrow rotation is the pure function
(calculateBearing(currentPosition, destination) - heading + 360) mod 360
of its three inputs, and for current position (37, -122), destination
(37.001, -122) and heading 0 it equals 0 exactly (destination directly
ahead). -/
theorem arrowRotation_pure_and_north :
    (∀ (cur dest : Location) (h : ℝ),
        arrowRotation cur dest h =
          jsMod (calculateBearing cur dest - h + 360) 360) ∧
      arrowRotation ⟨37, -122⟩ ⟨37.001, -122⟩ 0 = 0 := by
  refine ⟨fun cur dest h => rfl, ?_⟩
  have heq : toRad (37.001 : ℝ) - toRad 37 = 0.001 * Real.pi / 180 := by
    unfold toRad; ring
  have hp : (0 : ℝ) < 0.001 * Real.pi / 180 := by positivity
  have hb : calculateBearing ⟨37, -122⟩ ⟨37.001, -122⟩ = 0 :=
    calculateBearing_due_north (by linarith) (by rw [heq]; linarith [Real.pi_pos])
  show adjustedBearing (calculateBearing ⟨37, -122⟩ ⟨37.001, -122⟩) 0 = 0
  rw [hb]
  unfold adjustedBearing
  rw [show (0 : ℝ) - 0 + 360 = 360 by norm_num]
  exact jsMod_base (by norm_num)

/-- C7 counterexample: the distance of MapService.calculateDistance is 0
at the distinct coordinate values (90, 0) and (90, 90), which both denote
the north pole, so distance 0 does not imply value equality of the
coordinates; the claimed equivalence fails at this concrete input. -/
theorem distance_zero_iff_fails :
    ¬ (calculateDistance ⟨90, 0⟩ ⟨90, 90⟩ = 0 ↔
        (Location.mk 90 0) = Location.mk 90 90) := by
  intro hiff
  have hloc := hiff.mp calculateDistance_pole
  have hlon := congrArg Location.longitude hloc
  norm_num at hlon

/-- C7 amended: both distance functions of the source are symmetric and
vanish on equal coordinates (so equal inputs give distance 0), but
distance 0 does not imply coordinate equality. -/
theorem distance_symm_and_self_zero :
    ∀ a b : Location,
      calculateDistance a b = calculateDistance b a ∧
        calculateDistance a a = 0 ∧
        haversineDistance a b = haversineDistance b a ∧
        haversineDistance a a = 0 := by
  intro a b
  refine ⟨?_, calculateDistance_self a, ?_, ?_⟩
  · unfold calculateDistance turfDistanceKm
    rw [haversineAngle_comm]
  · unfold haversineDistance
    rw [haversineAngle_comm]
  · unfold haversineDistance
    rw [haversineAngle_self]
    ring

/-- C8 counterexample: the rotation mapper is not invariant under adding
360 degrees to the heading input: with bearing 10 and heading 20 the
JavaScript remainder keeps the sign of the dividend, so the rotation for
heading 380 is -10 while the rotation for heading 20 is 350. -/
theorem rotation_heading_plus_360_differs :
    adjustedBearing (10 : ℚ) (20 + 360) ≠ adjustedBearing (10 : ℚ) 20 := by
  have h1 : adjustedBearing (10 : ℚ) (20 + 360) = -10 := by
    unfold adjustedBearing jsMod trunc
    norm_num
  have h2 : adjustedBearing (10 : ℚ) 20 = 350 := by
    unfold adjustedBearing jsMod trunc
    norm_num
  rw [h1, h2]
  norm_num

/-- C8 amended: the rotation mapper is invariant under adding 360 degrees
to the bearing input whenever the pre-modulo operand
bearing - heading + 360 is nonnegative (which holds for the sensor ranges
bearing at least 0 and heading in [0, 360]); invariance under adding 360
to the heading fails. -/
theorem rotation_bearing_plus_360_invariant :
    ∀ {α : Type} [inst1 : LinearOrderedField α] [inst2 : FloorRing α] (b h : α),
      0 ≤ b - h + 360 → adjustedBearing (b + 360) h = adjustedBearing b h := by
  intro α inst1 inst2 b h hx
  unfold adjustedBearing
  rw [show b + 360 - h + 360 = (b - h + 360) + 360 by ring]
  exact jsMod_add_self (by norm_num) hx

/-- C8 witness: bearing 90, heading 30 satisfies the nonnegativity side
condition and adding 360 to the bearing leaves the rotation unchanged. -/
theorem rotation_bearing_plus_360_invariant_witness :
    (0 : ℚ) ≤ 90 - 30 + 360 ∧
      adjustedBearing ((90 : ℚ) + 360) 30 = adjustedBearing 90 30 :=
  ⟨by norm_num, rotation_bearing_plus_360_invariant 90 30 (by norm_num)⟩

/-- C9: With origin and destination both (10, 10), the reported bearing is
0, the computed distance is 0, the fallback route path consists of the
two equal endpoints, and the first location-update of the session sets
the arrived flag (distance 0 is below the 10-meter threshold). -/
theorem origin_eq_destination_degenerate :
    calculateBearing ⟨10, 10⟩ ⟨10, 10⟩ = 0 ∧
      calculateDistance ⟨10, 10⟩ ⟨10, 10⟩ = 0 ∧
      (createDirectRoute ⟨10, 10⟩ ⟨10, 10⟩).coordinates = [⟨10, 10⟩, ⟨10, 10⟩] ∧
      (onFix (sessionInit ⟨10, 10⟩) ⟨10, 10⟩).hasArrived = true := by
  refine ⟨calculateBearing_self _, calculateDistance_self _, rfl, ?_⟩
  show arrivalUpdate false (calculateDistance ⟨10, 10⟩ ⟨10, 10⟩) = true
  rw [calculateDistance_self]
  norm_num [arrivalUpdate]

/-- C10: A position fix with a null heading leaves the stored heading
unchanged, as does an orientation event with null alpha; the stored
heading stays at its initial value 0 across any sequence of events none
of which carries a non-null heading, so only such events modify it. -/
theorem heading_null_events_preserve :
    (∀ {α : Type} [inst1 : LinearOrderedField α] [inst2 : FloorRing α] (h : α),
        updateHeading h (GeoEvent.posFix none) = h ∧
          updateHeading h (GeoEvent.orientation none) = h) ∧
      (∀ {α : Type} [inst1 : LinearOrderedField α] [inst2 : FloorRing α]
          (h : α) (e : GeoEvent α),
          carriesHeading e = false → updateHeading h e = h) ∧
      (∀ es : List (GeoEvent ℚ),
          (∀ e ∈ es, carriesHeading e = false) →
            List.foldl updateHeading initialHeading es = initialHeading) := by
  refine ⟨?_, ?_, ?_⟩
  · intro α inst1 inst2 h
    exact ⟨rfl, rfl⟩
  · intro α inst1 inst2 h e he
    cases e with
    | posFix o =>
      cases o with
      | none => rfl
      | some a => simp [carriesHeading] at he
    | orientation o =>
      cases o with
      | none => rfl
      | some a => simp [carriesHeading] at he
  · intro es
    induction es with
    | nil => intro hes; rfl
    | cons e rest ih =>
      intro hes
      have he : carriesHeading e = false := hes e (List.mem_cons_self e rest)
      have hup : updateHeading initialHeading e = initialHeading := by
        cases e with
        | posFix o =>
          cases o with
          | none => rfl
          | some a => simp [carriesHeading] at he
        | orientation o =>
          cases o with
          | none => rfl
          | some a => simp [carriesHeading] at he
      rw [List.foldl_cons, hup]
      exact ih (fun x hx => hes x (List.mem_cons_of_mem e hx))

/-- C10 witness: a null-heading fix followed by a null-alpha orientation
event leaves the stored heading at its initial value. -/
theorem heading_null_events_preserve_witness :
    List.foldl updateHeading initialHeading
        [GeoEvent.posFix (none : Option ℚ), GeoEvent.orientation none] =
      initialHeading :=
  heading_null_events_preserve.2.2
    [GeoEvent.posFix none, GeoEvent.orientation none]
    (by
      intro e he
      rcases List.mem_cons.mp he with rfl | he2
      · rfl
      rcases List.mem_cons.mp he2 with rfl | he3
      · rfl
      exact absurd he3 (List.not_mem_nil e))

end ProjectAR
